import Mathlib

/-!
Verification development for the network-validator repository.

The Go sources are shallowly embedded: Go maps become association lists
(one fixed iteration order), machine integers become Nat or Int, fallible
operations become Option or Except, and I/O-bound operations (command
execution, HTTP calls, the acknowledgement channel) are parametrized by
their outcomes.  The IPv4 textual parsing of the Go net package is
modelled for dotted-quad addresses; IPv6 textual forms are out of scope
of this model and parse to none.  String scanning is done on the
underlying character lists by structural recursion so that every
definition evaluates inside the kernel.
-/

namespace Netplan

/-- Split a character list on a separator character; mirrors the Go
strings.Split behavior for a one-character separator. -/
def splitOnChar (sep : Char) : List Char → List (List Char)
  | [] => [[]]
  | c :: rest =>
    let r := splitOnChar sep rest
    if c = sep then [] :: r
    else
      match r with
      | [] => [[c]]
      | g :: gs => (c :: g) :: gs

/-- Model of Go stripCIDR: everything before the first slash, or the whole
string when it has no slash. -/
def stripCIDR (ip : String) : String :=
  String.mk (ip.data.takeWhile (fun c => c != '/'))

/-- ASCII digit test used by the Go net parsing routines. -/
def isAsciiDigit (c : Char) : Bool :=
  '0' ≤ c && c ≤ '9'

/-- Decimal value of a digit list (no validation; callers validate). -/
def digitsToNat (cs : List Char) : Nat :=
  cs.foldl (fun a c => a * 10 + (c.toNat - '0'.toNat)) 0

/-- Model of one dotted-quad field as accepted by the Go net package
(netip parseV4 field rules): one to three ASCII digits, no leading zero,
value at most 255. -/
def parseV4Field (cs : List Char) : Option Nat :=
  if cs.length = 0 then none
  else if cs.length > 3 then none
  else if !(cs.all isAsciiDigit) then none
  else if cs.length > 1 && cs.headD 'x' = '0' then none
  else
    let v := digitsToNat cs
    if v ≤ 255 then some v else none

/-- Model of Go net.ParseIP restricted to IPv4 dotted-quad text: exactly
four fields separated by dots, each a valid field.  The 32-bit address is
returned as a Nat.  IPv6 text is not modelled and yields none. -/
def parseIPChars (cs : List Char) : Option Nat :=
  match splitOnChar '.' cs with
  | [a, b, c, d] =>
    match parseV4Field a, parseV4Field b, parseV4Field c, parseV4Field d with
    | some x, some y, some z, some w => some (((x * 256 + y) * 256 + z) * 256 + w)
    | _, _, _, _ => none
  | _ => none

/-- String-level wrapper for the IPv4 parse. -/
def parseIP (s : String) : Option Nat :=
  parseIPChars s.data

/-- Model of the prefix-length parse in Go net.ParseCIDR (dtoi plus the
full-consumption and range checks): a non-empty all-digit string whose
value is at most 32.  Leading zeros are accepted, exactly as dtoi does. -/
def parseMaskLen (cs : List Char) : Option Nat :=
  if cs.length = 0 then none
  else if !(cs.all isAsciiDigit) then none
  else
    let n := digitsToNat cs
    if n ≤ 32 then some n else none

/-- Applying the Go CIDRMask of prefix length n (top n of 32 bits) to a
32-bit address: the bytewise AND with a top-bits mask clears the low
32 - n bits, which is division and multiplication by 2 ^ (32 - n). -/
def maskApply (x n : Nat) : Nat :=
  x / 2 ^ (32 - n) * 2 ^ (32 - n)

/-- Model of Go net.IPNet as produced by ParseCIDR for IPv4: the (already
masked) network number and the prefix length of the mask. -/
structure IPNet where
  ip : Nat
  maskLen : Nat
deriving DecidableEq

/-- Model of Go (*IPNet).Contains: AND both sides with the mask and
compare. -/
def IPNet.contains (net : IPNet) (addr : Nat) : Bool :=
  maskApply net.ip net.maskLen == maskApply addr net.maskLen

/-- Model of Go net.ParseCIDR for IPv4: split at the first slash, parse
the address part as an IPv4 address and the rest as a prefix length, and
return the masked network with its mask length. -/
def parseCIDR (s : String) : Option IPNet :=
  let cs := s.data
  if !cs.contains '/' then none
  else
    let addr := cs.takeWhile (fun c => c != '/')
    let maskStr := (cs.dropWhile (fun c => c != '/')).drop 1
    match parseIPChars addr, parseMaskLen maskStr with
    | some ip, some n => some ⟨maskApply ip n, n⟩
    | _, _ => none

/-- Embedding of netplan.IPWithMask. -/
structure IPWithMask where
  ip : String
  cidr : String
  ipNet : IPNet
  bondName : String
deriving DecidableEq

/-- Embedding of netplan.InSameSubnet: parse the first argument as
network plus mask, strip any mask from the second and parse it as a bare
address, and test containment; any parse failure yields false. -/
def InSameSubnet (ip1CIDR ip2 : String) : Bool :=
  match parseCIDR ip1CIDR with
  | none => false
  | some n =>
    match parseIP (stripCIDR ip2) with
    | none => false
    | some addr => n.contains addr

/-- Common interface properties from netplan/types.go; only the fields
read by the embedded operations (addresses, MTU) are carried. -/
structure CommonInterface where
  addresses : List String
  mtu : Int
deriving DecidableEq

/-- Ethernet interface entry. -/
structure Ethernet where
  common : CommonInterface
deriving DecidableEq

/-- Wifi interface entry. -/
structure Wifi where
  common : CommonInterface
deriving DecidableEq

/-- Bridge interface entry with its member interface names. -/
structure Bridge where
  common : CommonInterface
  interfaces : List String
deriving DecidableEq

/-- Bond interface entry with its member interface names. -/
structure Bond where
  common : CommonInterface
  interfaces : List String
deriving DecidableEq

/-- VLAN interface entry with numeric id and parent link. -/
structure VLAN where
  common : CommonInterface
  id : Int
  link : String
deriving DecidableEq

/-- Tunnel interface entry; the Go Local and Remote endpoint fields are
named localAddr and remoteAddr here because local is a Lean keyword. -/
structure Tunnel where
  common : CommonInterface
  mode : String
  localAddr : String
  remoteAddr : String
deriving DecidableEq

/-- VRF entry. -/
structure VRF where
  table : Int
  interfaces : List String
deriving DecidableEq

/-- Modem interface entry. -/
structure Modem where
  common : CommonInterface
deriving DecidableEq

/-- The network block of a netplan document.  Go maps are embedded as
association lists in one fixed iteration order; keys are unique per
document. -/
structure Network where
  version : Int
  renderer : String
  ethernets : List (String × Ethernet)
  wifis : List (String × Wifi)
  bridges : List (String × Bridge)
  bonds : List (String × Bond)
  vlans : List (String × VLAN)
  tunnels : List (String × Tunnel)
  vrfs : List (String × VRF)
  modems : List (String × Modem)
deriving DecidableEq

/-- A netplan configuration document. -/
structure Config where
  network : Network
deriving DecidableEq

/-- Embedding of validateInterfaceName. -/
def validateInterfaceName (name : String) : Option String :=
  if name.length = 0 then some "interface name cannot be empty"
  else if name.length > 15 then
    some ("interface name too long: " ++ name ++ " (max 15 characters)")
  else none

/-- Embedding of validateCommonInterface: each address must carry a mask,
and a nonzero MTU must lie in 68..65536. -/
def validateCommonInterface (iface : CommonInterface) : List String :=
  (iface.addresses.filterMap fun addr =>
    if addr.data.contains '/' then none
    else some ("address " ++ addr ++ " must include subnet mask"))
  ++ (if iface.mtu != 0 && (iface.mtu < 68 || iface.mtu > 65536) then
        ["invalid MTU " ++ toString iface.mtu ++ " (must be 68-65536)"] else [])

/-- Errors of one named section entry: the name check plus the common
checks, each tagged with the section and entry name. -/
def sectionErrors (tag name : String) (iface : CommonInterface) : List String :=
  (match validateInterfaceName name with
   | some e => [tag ++ " " ++ name ++ ": " ++ e]
   | none => [])
  ++ (validateCommonInterface iface).map (fun e => tag ++ " " ++ name ++ ": " ++ e)

/-- Embedding of (*Config).Validate: collect advisory diagnostics for the
version, the renderer, ethernets, wifis, bridges, bonds and VLANs.  VLANs
get the id range and link checks instead of the common checks. -/
def Config.Validate (c : Config) : List String :=
  (if c.network.version != 2 then
     ["unsupported network version: " ++ toString c.network.version
       ++ " (only version 2 is supported)"] else [])
  ++ (if c.network.renderer != "" && c.network.renderer != "networkd"
        && c.network.renderer != "NetworkManager" then
        ["invalid renderer: " ++ c.network.renderer
          ++ " (must be one of: networkd, NetworkManager)"] else [])
  ++ (c.network.ethernets.flatMap fun p => sectionErrors "ethernet" p.1 p.2.common)
  ++ (c.network.wifis.flatMap fun p => sectionErrors "wifi" p.1 p.2.common)
  ++ (c.network.bridges.flatMap fun p => sectionErrors "bridge" p.1 p.2.common)
  ++ (c.network.bonds.flatMap fun p => sectionErrors "bond" p.1 p.2.common)
  ++ (c.network.vlans.flatMap fun p =>
        (match validateInterfaceName p.1 with
         | some e => ["vlan " ++ p.1 ++ ": " ++ e]
         | none => [])
        ++ (if p.2.id < 1 || p.2.id > 4094 then
              ["vlan " ++ p.1 ++ ": invalid VLAN ID " ++ toString p.2.id
                ++ " (must be 1-4094)"] else [])
        ++ (if p.2.link == "" then ["vlan " ++ p.1 ++ ": link is required"] else []))

/-- Embedding of (*Config).GetInterfaceNames: every name of every
section, in section order. -/
def Config.GetInterfaceNames (c : Config) : List String :=
  c.network.ethernets.map Prod.fst ++ c.network.wifis.map Prod.fst
  ++ c.network.bridges.map Prod.fst ++ c.network.bonds.map Prod.fst
  ++ c.network.vlans.map Prod.fst ++ c.network.tunnels.map Prod.fst
  ++ c.network.vrfs.map Prod.fst ++ c.network.modems.map Prod.fst

/-- The Go lookup-and-test idiom for bridges, as used throughout
config.go: whether a bridge of that name exists and lists the member in
its interfaces. -/
def Config.bridgeHasMember (c : Config) (bridgeName member : String) : Bool :=
  match c.network.bridges.lookup bridgeName with
  | some bridge => bridge.interfaces.contains member
  | none => false

/-- The Go lookup-and-test idiom for VLANs, as used throughout
config.go: whether a VLAN of that name exists and has the given link. -/
def Config.vlanHasLink (c : Config) (vlanName link : String) : Bool :=
  match c.network.vlans.lookup vlanName with
  | some vlan => vlan.link == link
  | none => false

/-- Embedding of (*Config).isBondRelated: the bond itself, a VLAN on the
bond, a VLAN on a bridge containing the bond, or a bridge containing the
bond.  This is a fixed-depth check, not a closure. -/
def Config.isBondRelated (c : Config) (bondName interfaceName : String) : Bool :=
  if interfaceName == bondName then true
  else
    (match c.network.vlans.lookup interfaceName with
     | some vlan => vlan.link == bondName || c.bridgeHasMember vlan.link bondName
     | none => false)
    || c.bridgeHasMember interfaceName bondName

/-- Embedding of (*Config).GetAllBondRelatedInterfaces: the bond, VLANs
linked to the bond, bridges containing the bond, VLANs linked to a bridge
containing the bond, and tunnels passing isBondRelated; empty when the
bond does not exist. -/
def Config.GetAllBondRelatedInterfaces (c : Config) (bondName : String) : List String :=
  match c.network.bonds.lookup bondName with
  | none => []
  | some _ =>
    [bondName]
    ++ ((c.network.vlans.filter fun p => p.2.link == bondName).map Prod.fst)
    ++ ((c.network.bridges.filter fun p => p.2.interfaces.contains bondName).map Prod.fst)
    ++ ((c.network.vlans.filter fun p => c.bridgeHasMember p.2.link bondName).map Prod.fst)
    ++ ((c.network.tunnels.filter fun p => c.isBondRelated bondName p.1).map Prod.fst)

/-- The (owner, address) pairs visited by GetBondIPAddressesWithMask for
an existing bond, in the source's case order: the bond's own addresses,
VLANs on the bond, bridges containing the bond, VLANs on bridges
containing the bond, bridges containing a VLAN on the bond, and tunnels
passing isBondRelated. -/
def Config.bondAddressPairs (c : Config) (bondName : String) (bond : Bond) :
    List (String × String) :=
  (bond.common.addresses.map fun a => (bondName, a))
  ++ ((c.network.vlans.filter fun p => p.2.link == bondName).flatMap
        fun p => p.2.common.addresses.map fun a => (p.1, a))
  ++ ((c.network.bridges.filter fun p => p.2.interfaces.contains bondName).flatMap
        fun p => p.2.common.addresses.map fun a => (p.1, a))
  ++ ((c.network.vlans.filter fun p => c.bridgeHasMember p.2.link bondName).flatMap
        fun p => p.2.common.addresses.map fun a => (p.1, a))
  ++ ((c.network.bridges.filter fun p =>
        p.2.interfaces.any fun m => c.vlanHasLink m bondName).flatMap
        fun p => p.2.common.addresses.map fun a => (p.1, a))
  ++ ((c.network.tunnels.filter fun p =>
        !p.2.common.addresses.isEmpty && c.isBondRelated bondName p.1).flatMap
        fun p => p.2.common.addresses.map fun a => (p.1, a))

/-- Embedding of (*Config).GetBondIPAddressesWithMask: every visited
address that parses as a CIDR becomes an IPWithMask tagged with its
owner; unparsable addresses are skipped (the addIPWithMask helper's
early return). -/
def Config.GetBondIPAddressesWithMask (c : Config) (bondName : String) : List IPWithMask :=
  match c.network.bonds.lookup bondName with
  | none => []
  | some bond =>
    (c.bondAddressPairs bondName bond).filterMap fun pr =>
      (parseCIDR pr.2).map fun net => ⟨stripCIDR pr.2, pr.2, net, pr.1⟩

/-- Append values under a key of an association-list map, mimicking Go's
result[k] = append(result[k], ...). -/
def mapAppend (m : List (String × List String)) (k : String) (vs : List String) :
    List (String × List String) :=
  match m with
  | [] => [(k, vs)]
  | (k2, v2) :: rest =>
    if k2 == k then (k2, v2 ++ vs) :: rest else (k2, v2) :: mapAppend rest k vs

/-- Embedding of (*Config).GetBondIPAddresses: the same six cases with
stripped addresses, grouped per owner; a case contributes only when its
address list is non-empty, and a missing bond yields the empty map. -/
def Config.GetBondIPAddresses (c : Config) (bondName : String) :
    List (String × List String) :=
  match c.network.bonds.lookup bondName with
  | none => []
  | some bond =>
    let entries : List (String × List String) :=
      (if bond.common.addresses.isEmpty then []
       else [(bondName, bond.common.addresses.map stripCIDR)])
      ++ ((c.network.vlans.filter fun p =>
            p.2.link == bondName && !p.2.common.addresses.isEmpty).map
            fun p => (p.1, p.2.common.addresses.map stripCIDR))
      ++ ((c.network.bridges.filter fun p =>
            p.2.interfaces.contains bondName && !p.2.common.addresses.isEmpty).map
            fun p => (p.1, p.2.common.addresses.map stripCIDR))
      ++ ((c.network.vlans.filter fun p =>
            c.bridgeHasMember p.2.link bondName && !p.2.common.addresses.isEmpty).map
            fun p => (p.1, p.2.common.addresses.map stripCIDR))
      ++ ((c.network.bridges.filter fun p =>
            (p.2.interfaces.any fun m => c.vlanHasLink m bondName)
              && !p.2.common.addresses.isEmpty).map
            fun p => (p.1, p.2.common.addresses.map stripCIDR))
      ++ ((c.network.tunnels.filter fun p =>
            !p.2.common.addresses.isEmpty && c.isBondRelated bondName p.1).map
            fun p => (p.1, p.2.common.addresses.map stripCIDR))
    entries.foldl (fun m e => mapAppend m e.1 e.2) []

/-- Embedding of the per-file loop of LoadNetplanConfigsFromDir: the
first parse failure aborts the whole load with an error. -/
def loadConfigs (loadConfig : String → Except String Config) :
    List String → Except String (List Config)
  | [] => .ok []
  | f :: fs =>
    match loadConfig f with
    | .error e => .error ("failed to load config from " ++ f ++ ": " ++ e)
    | .ok c =>
      match loadConfigs loadConfig fs with
      | .error e => .error e
      | .ok cs => .ok (c :: cs)

/-- Embedding of LoadNetplanConfigsFromDir: the two glob calls are
parametrized by their outcomes and the per-file parse by a function; a
glob failure aborts, and then the per-file loop runs on the concatenated
file list. -/
def LoadNetplanConfigsFromDir (globYaml globYml : Except String (List String))
    (loadConfig : String → Except String Config) : Except String (List Config) :=
  match globYaml with
  | .error e => .error ("failed to glob yaml files: " ++ e)
  | .ok yamlFiles =>
    match globYml with
    | .error e => .error ("failed to glob yml files: " ++ e)
    | .ok ymlFiles => loadConfigs loadConfig (yamlFiles ++ ymlFiles)

/-- Modelled from the spec: one pass of the relation-resolver closure of
section 4.2 — every unvisited node joins if it is a VLAN whose link is
visited, a bridge whose membership intersects the visited set, or a
tunnel whose configured endpoint is visited (the Tunnel endpoint fields
of the source are its Local and Remote addresses). -/
def closureStep (c : Config) (visited : List String) : List String :=
  visited
  ++ ((c.network.vlans.filter fun p =>
        !visited.contains p.1 && visited.contains p.2.link).map Prod.fst)
  ++ ((c.network.bridges.filter fun p =>
        !visited.contains p.1 && p.2.interfaces.any (fun i => visited.contains i)).map Prod.fst)
  ++ ((c.network.tunnels.filter fun p =>
        !visited.contains p.1
        && (visited.contains p.2.localAddr || visited.contains p.2.remoteAddr)).map Prod.fst)

/-- Modelled from the spec: the full derived-interface closure of a bond,
obtained by iterating closureStep until a fixed point; iterating once per
interface name plus one is enough since the visited set grows strictly
until the fixed point. -/
def specDerivedClosure (c : Config) (bondName : String) : List String :=
  (List.range (c.GetInterfaceNames.length + 1)).foldl
    (fun v _ => closureStep c v) [bondName]

end Netplan

deriving instance DecidableEq for Except

namespace Agent

/-- Embedding of agent.TestResult. -/
structure TestResult where
  targetHostname : String
  targetIP : String
  sourceIP : String
  bondName : String
  testType : String
  success : Bool
  responseTimeMS : Int
  errorMessage : String
deriving DecidableEq

/-- Embedding of agent.TargetInfo: the bond to IP-list mapping. -/
structure TargetInfo where
  links : List (String × List String)
deriving DecidableEq

/-- Outcomes of the two probes against one target, abstracting the
arping process and the HTTP call of testConnectivity: the arping error
(none on success), the elapsed milliseconds of each probe, and the HTTP
outcome (transport error or status code). -/
structure ProbeOutcome where
  arpErr : Option String
  arpElapsedMS : Int
  httpResp : Except String Nat
  httpElapsedMS : Int
deriving DecidableEq

set_option linter.unusedVariables false

/-- Embedding of (*Agent).testConnectivity with the probe effects
abstracted into a ProbeOutcome: the ARP result is always emitted first
and the HTTP result second, each with success and message derived from
its own outcome only.  The source interface parameter only feeds the
arping command line in the source and does not shape the results. -/
def testConnectivity (targetHostname targetIP bondName sourceIP sourceInterface : String)
    (o : ProbeOutcome) : List TestResult :=
  let arpResult : TestResult :=
    match o.arpErr with
    | some e => ⟨targetHostname, targetIP, sourceIP, bondName, "arp", false,
                 o.arpElapsedMS, "ARP ping failed: " ++ e⟩
    | none => ⟨targetHostname, targetIP, sourceIP, bondName, "arp", true,
               o.arpElapsedMS, ""⟩
  let httpResult : TestResult :=
    match o.httpResp with
    | .error e => ⟨targetHostname, targetIP, sourceIP, bondName, "http", false,
                   o.httpElapsedMS, e⟩
    | .ok code =>
      if code = 200 then
        ⟨targetHostname, targetIP, sourceIP, bondName, "http", true, o.httpElapsedMS, ""⟩
      else
        ⟨targetHostname, targetIP, sourceIP, bondName, "http", false, o.httpElapsedMS,
         "HTTP status " ++ toString code⟩
  [arpResult, httpResult]

set_option linter.unusedVariables true

/-- Embedding of (*Agent).RunConnectivityTests with the probe effects
parametrized per target IP: every (hostname, bond, IP) triple of the
incoming target set is matched against the local masked addresses in
iteration order; the first match supplies the local source IP and
interface, unmatched triples are skipped, and the two per-target results
are produced in order.  The returned list is the sequence of results
submitted one by one. -/
def RunConnectivityTests (myIPs : List Netplan.IPWithMask)
    (targets : List (String × TargetInfo)) (probe : String → ProbeOutcome) :
    List TestResult :=
  targets.flatMap fun t =>
    t.2.links.flatMap fun l =>
      l.2.flatMap fun targetIP =>
        match myIPs.find? (fun m => Netplan.InSameSubnet m.cidr targetIP) with
        | none => []
        | some m => testConnectivity t.1 targetIP l.1 m.ip m.bondName (probe targetIP)

end Agent

namespace Aggregator

/-- A registered server row as read back by GetAllServers: hostname, IP
address and the outcome of unmarshalling its stored bonds JSON. -/
structure Server where
  hostname : String
  ipAddress : String
  bonds : Except String (List (String × List String))
deriving DecidableEq

/-- Embedding of the target-matrix construction of handleRunTests:
servers whose stored bonds fail to unmarshal are skipped; every other
registered hostname contributes its bond-to-IP mapping. -/
def buildAllTargets (servers : List Server) : List (String × Agent.TargetInfo) :=
  servers.filterMap fun s =>
    match s.bonds with
    | .error _ => none
    | .ok b => some (s.hostname, ⟨b⟩)

/-- Embedding of the personalization step of handleRunTests: the target
set dispatched to one agent is the full matrix without its own
hostname. -/
def targetsForAgent (allTargets : List (String × Agent.TargetInfo)) (hostname : String) :
    List (String × Agent.TargetInfo) :=
  allTargets.filter fun p => p.1 != hostname

/-- One trigger acknowledgement arriving on the result channel. -/
structure AckMsg where
  hostname : String
  ipAddr : String
  success : Bool
  errMsg : String
deriving DecidableEq

/-- The failed-agent entry recorded for an explicit failure. -/
def failMsg (a : AckMsg) : String :=
  a.hostname ++ " (" ++ a.ipAddr ++ "): " ++ a.errMsg

/-- The single aggregated failed-agent entry recorded on timeout. -/
def agentsTimedOutMsg (n : Nat) : String :=
  toString n ++ " agents timed out"

/-- Embedding of the acknowledgement-collection loop of handleRunTests:
the fuel is the number of registered servers and the arrivals are the
messages reaching the channel within the window, in arrival order; when
fuel remains after the arrivals are exhausted, the timeout branch
appends one aggregated failed-agents entry and stops. -/
def collectAcks : List AckMsg → Nat → Nat → List String → Nat × List String
  | _, 0, succ, failed => (succ, failed)
  | [], Nat.succ k, succ, failed => (succ, failed ++ [agentsTimedOutMsg (k + 1)])
  | a :: rest, Nat.succ k, succ, failed =>
    if a.success then collectAcks rest k (succ + 1) failed
    else collectAcks rest k succ (failed ++ [failMsg a])

/-- The trigger-response fields of handleRunTests that the claims are
about: count, total and failed_agents. -/
structure RunTestsResponse where
  count : Nat
  total : Nat
  failedAgents : List String
deriving DecidableEq

/-- Embedding of the response construction of handleRunTests: with no
registered servers the handler returns early with count 0; otherwise
count is the number of successful acknowledgements collected within the
window, total the number of registered servers, and failed_agents the
collected failure entries. -/
def handleRunTests (servers : List Server) (arrivals : List AckMsg) : RunTestsResponse :=
  if servers.isEmpty then ⟨0, 0, []⟩
  else
    let r := collectAcks arrivals servers.length 0 []
    ⟨r.1, servers.length, r.2⟩

end Aggregator

open Netplan in
/-- Fixture for the two-level scenario of the spec: bond0 with one
address, a VLAN bond0.100 on it, and a bridge br0 containing it. -/
def cfg4 : Netplan.Config :=
  ⟨⟨2, "", [], [],
    [("br0", ⟨⟨["172.16.1.1/24"], 0⟩, ["bond0"]⟩)],
    [("bond0", ⟨⟨["10.0.1.100/24"], 0⟩, ["eth0", "eth1"]⟩)],
    [("bond0.100", ⟨⟨["10.100.1.1/24"], 0⟩, 100, "bond0"⟩)],
    [], [], []⟩⟩

open Netplan in
/-- Fixture with three-level nesting: vlan20 sits on vlan10, which sits
on bond0. -/
def cfgNested : Netplan.Config :=
  ⟨⟨2, "", [], [], [],
    [("bond0", ⟨⟨["10.0.1.100/24"], 0⟩, ["eth0"]⟩)],
    [("vlan10", ⟨⟨["10.10.0.1/24"], 0⟩, 10, "bond0"⟩),
     ("vlan20", ⟨⟨["10.20.0.1/24"], 0⟩, 20, "vlan10"⟩)],
    [], [], []⟩⟩

open Netplan in
/-- Fixture for the validation scenario: version 1 and a VLAN with id
5000 whose link is set. -/
def cfg9 : Netplan.Config :=
  ⟨⟨1, "", [], [], [], [],
    [("vlan0", ⟨⟨[], 0⟩, 5000, "eth0"⟩)],
    [], [], []⟩⟩

open Netplan in
/-- Fixture with no bonds at all, but a VLAN, a bridge and a tunnel that
all reference the absent name bond0. -/
def cfg10 : Netplan.Config :=
  ⟨⟨2, "", [], [],
    [("br0", ⟨⟨["1.2.3.4/24"], 0⟩, ["bond0"]⟩)],
    [],
    [("vlan10", ⟨⟨["10.10.0.1/24"], 0⟩, 10, "bond0"⟩)],
    [("tun0", ⟨⟨["10.9.0.1/24"], 0⟩, "gre", "bond0", "10.0.0.2"⟩)],
    [], []⟩⟩

/-- Fixture for the end-to-end agent scenario: one local masked address
192.168.1.10/24 on bond0 (network number 192.168.1.0). -/
def scenarioMyIPs : List Netplan.IPWithMask :=
  [⟨"192.168.1.10", "192.168.1.10/24", ⟨(192 * 256 + 168) * 65536 + 256, 24⟩, "bond0"⟩]

/-- Fixture for the end-to-end agent scenario: one in-subnet target IP
and one out-of-subnet target IP. -/
def scenarioTargets : List (String × Agent.TargetInfo) :=
  [("server2", ⟨[("bond0", ["192.168.1.20"])]⟩),
   ("server3", ⟨[("bond0", ["10.0.0.5"])]⟩)]

/-- Fixture for the aggregator scenario: three registered servers. -/
def scenarioServers : List Aggregator.Server :=
  [⟨"agent-a", "10.1.0.1", .ok [("bond0", ["10.1.0.1"])]⟩,
   ⟨"agent-b", "10.1.0.2", .ok [("bond0", ["10.1.0.2"])]⟩,
   ⟨"agent-c", "10.1.0.3", .ok [("bond0", ["10.1.0.3"])]⟩]

/-- Fixture for the aggregator scenario: two acknowledgements arrive in
the window, the third agent never answers. -/
def scenarioArrivals : List Aggregator.AckMsg :=
  [⟨"agent-a", "10.1.0.1", true, ""⟩, ⟨"agent-b", "10.1.0.2", true, ""⟩]

/-- A well-formed document with no interfaces at all. -/
def emptyConfig : Netplan.Config := ⟨⟨2, "", [], [], [], [], [], [], [], []⟩⟩

/-- Per-file parse outcomes for the directory-load scenario: a.yaml is
malformed, b.yaml parses. -/
def c3LoadOutcome : String → Except String Netplan.Config :=
  fun f => if f == "b.yaml" then Except.ok emptyConfig
           else Except.error "yaml: unmarshal error"

/-- The ARP result produced for the in-subnet scenario target when both
probes succeed instantly. -/
def c6SampleResult : Agent.TestResult :=
  ⟨"server2", "192.168.1.20", "192.168.1.10", "bond0", "arp", true, 0, ""⟩


/-- The projection of both prober results onto their identifying fields:
whatever the probe outcomes are, testConnectivity yields the ARP result
first and the HTTP result second, both tagged with the given target and
source. -/
theorem testConnectivity_projection (th tip bn sIP sIf : String) (o : Agent.ProbeOutcome) :
    (Agent.testConnectivity th tip bn sIP sIf o).map
      (fun r => (r.targetHostname, r.targetIP, r.sourceIP, r.bondName, r.testType))
    = [(th, tip, sIP, bn, "arp"), (th, tip, sIP, bn, "http")] := by
  rcases o with ⟨a, t1, h, t2⟩
  cases a <;> cases h <;> simp [Agent.testConnectivity, apply_ite]

/-- Claim C2: InSameSubnet parses its first argument as network plus
mask, strips any mask suffix from its second argument before parsing it
as a bare address, returns true exactly when the second address falls in
the first argument's network prefix, returns false (it is total, so
never an error) on any parse failure of either argument, and decides the
two concrete /22 examples as the spec states. -/
theorem c2_inSameSubnet_spec :
    (∀ s t, Netplan.InSameSubnet s t = true ↔
      ∃ n addr, Netplan.parseCIDR s = some n
        ∧ Netplan.parseIP (Netplan.stripCIDR t) = some addr
        ∧ n.contains addr = true)
    ∧ (∀ s t, Netplan.parseCIDR s = none → Netplan.InSameSubnet s t = false)
    ∧ (∀ s t, Netplan.parseIP (Netplan.stripCIDR t) = none →
        Netplan.InSameSubnet s t = false)
    ∧ Netplan.InSameSubnet "10.150.0.1/22" "10.150.3.253" = true
    ∧ Netplan.InSameSubnet "10.150.0.1/22" "10.150.4.1" = false := by
  refine ⟨?_, ?_, ?_, by decide, by decide⟩
  · intro s t
    cases h1 : Netplan.parseCIDR s with
    | none => simp [Netplan.InSameSubnet, h1]
    | some n =>
      cases h2 : Netplan.parseIP (Netplan.stripCIDR t) with
      | none => simp [Netplan.InSameSubnet, h1, h2]
      | some a => simp [Netplan.InSameSubnet, h1, h2]
  · intro s t h
    simp [Netplan.InSameSubnet, h]
  · intro s t h
    cases h1 : Netplan.parseCIDR s <;> simp [Netplan.InSameSubnet, h1, h]

/-- Witness for C2: a malformed first argument makes InSameSubnet return
false, via the parse-failure clause of the claim theorem. -/
theorem c2_witness : Netplan.InSameSubnet "not-a-cidr" "10.0.0.1" = false :=
  c2_inSameSubnet_spec.2.1 "not-a-cidr" "10.0.0.1" (by decide)

/-- Claim C4: in the two-level fixture, the relation closure of bond0 is
exactly bond0, bond0.100 and br0, and the masked-address set has exactly
three entries, one tagged with each of the three owner names. -/
theorem c4_two_level_scenario :
    cfg4.GetAllBondRelatedInterfaces "bond0" = ["bond0", "bond0.100", "br0"]
    ∧ (cfg4.GetBondIPAddressesWithMask "bond0").length = 3
    ∧ (cfg4.GetBondIPAddressesWithMask "bond0").map (fun e => e.bondName)
        = ["bond0", "bond0.100", "br0"] := by decide

/-- Claim C5: for every candidate target and every pair of probe
outcomes, the prober produces exactly two results, the first of type arp
and the second of type http; the HTTP result is unchanged under any
change of the ARP outcome and the ARP result is unchanged under any
change of the HTTP outcome, so neither probe's outcome prevents the
other probe. -/
theorem c5_prober_two_results
    (th tip bn sIP sIf : String) (a1 a2 : Option String) (m1 m2 : Int)
    (h1 h2 : Except String Nat) (n1 n2 : Int) :
    (Agent.testConnectivity th tip bn sIP sIf ⟨a1, m1, h1, n1⟩).length = 2
    ∧ (Agent.testConnectivity th tip bn sIP sIf ⟨a1, m1, h1, n1⟩).map (fun r => r.testType)
        = ["arp", "http"]
    ∧ (Agent.testConnectivity th tip bn sIP sIf ⟨a1, m1, h1, n1⟩).drop 1
        = (Agent.testConnectivity th tip bn sIP sIf ⟨a2, m2, h1, n1⟩).drop 1
    ∧ (Agent.testConnectivity th tip bn sIP sIf ⟨a1, m1, h1, n1⟩).take 1
        = (Agent.testConnectivity th tip bn sIP sIf ⟨a1, m1, h2, n2⟩).take 1 := by
  cases a1 <;> cases a2 <;> cases h1 <;> cases h2 <;>
    simp [Agent.testConnectivity, apply_ite]

/-- Claim C9: the version-1 document with an out-of-range VLAN id yields
at least two advisory validation errors, and its interface names are
still enumerable afterwards. -/
theorem c9_validation_advisory :
    2 ≤ cfg9.Validate.length ∧ cfg9.GetInterfaceNames = ["vlan0"] := by decide

/-- Claim C10: when the bond name is not a key of the bonds map, all
three resolver operations return an empty result, whatever VLANs,
bridges or tunnels referencing that name exist. -/
theorem c10_missing_bond_empty (c : Netplan.Config) (bond : String)
    (h : c.network.bonds.lookup bond = none) :
    c.GetBondIPAddresses bond = [] ∧ c.GetBondIPAddressesWithMask bond = []
    ∧ c.GetAllBondRelatedInterfaces bond = [] := by
  unfold Netplan.Config.GetBondIPAddresses Netplan.Config.GetBondIPAddressesWithMask
    Netplan.Config.GetAllBondRelatedInterfaces
  rw [h]
  exact ⟨rfl, rfl, rfl⟩

/-- Witness for C10: the bond-free fixture whose VLAN, bridge and tunnel
all reference bond0 still yields three empty results. -/
theorem c10_witness :
    cfg10.GetBondIPAddresses "bond0" = []
    ∧ cfg10.GetBondIPAddressesWithMask "bond0" = []
    ∧ cfg10.GetAllBondRelatedInterfaces "bond0" = [] :=
  c10_missing_bond_empty cfg10 "bond0" (by decide)

/-- Counterexample for C1: in the three-level fixture, vlan20 is in the
spec's transitive closure of bond0 (it is a VLAN on vlan10, itself a
VLAN on bond0), yet the resolver neither lists vlan20 among the related
interfaces nor returns its masked address — so the resolver does not
compute the full transitive closure. -/
theorem c1_closure_counterexample :
    "vlan20" ∈ Netplan.specDerivedClosure cfgNested "bond0"
    ∧ "vlan20" ∉ cfgNested.GetAllBondRelatedInterfaces "bond0"
    ∧ (cfgNested.GetBondIPAddressesWithMask "bond0").all
        (fun e => e.bondName != "vlan20") = true := by decide

/-- Bool membership test on a string list agrees with propositional
membership. -/
theorem string_contains_iff (l : List String) (a : String) :
    l.contains a = true ↔ a ∈ l := by
  simp [List.contains, List.elem_iff]

/-- The bridge lookup-and-test idiom holds exactly when the bridge
exists and has the member. -/
theorem bridgeHasMember_iff (c : Netplan.Config) (n m : String) :
    c.bridgeHasMember n m = true
      ↔ ∃ br, c.network.bridges.lookup n = some br ∧ m ∈ br.interfaces := by
  unfold Netplan.Config.bridgeHasMember
  cases c.network.bridges.lookup n <;> simp [string_contains_iff]

/-- The VLAN lookup-and-test idiom holds exactly when the VLAN exists
and has the link. -/
theorem vlanHasLink_iff (c : Netplan.Config) (n l : String) :
    c.vlanHasLink n l = true
      ↔ ∃ v, c.network.vlans.lookup n = some v ∧ v.link = l := by
  unfold Netplan.Config.vlanHasLink
  cases c.network.vlans.lookup n <;> simp

/-- Every result of testConnectivity carries the target and source it
was invoked with, whatever the probe outcomes were. -/
theorem mem_testConnectivity_fields (th tip bn sIP sIf : String) (o : Agent.ProbeOutcome)
    (r : Agent.TestResult) (hr : r ∈ Agent.testConnectivity th tip bn sIP sIf o) :
    r.targetHostname = th ∧ r.targetIP = tip ∧ r.sourceIP = sIP ∧ r.bondName = bn := by
  have hm := List.mem_map_of_mem
    (fun r : Agent.TestResult =>
      (r.targetHostname, r.targetIP, r.sourceIP, r.bondName, r.testType)) hr
  rw [testConnectivity_projection] at hm
  simp only [List.mem_cons, List.not_mem_nil, or_false] at hm
  rcases hm with hm | hm <;> simp only [Prod.mk.injEq] at hm <;>
    exact ⟨hm.1, hm.2.1, hm.2.2.1, hm.2.2.2.1⟩

/-- Claim C6: a triple of the incoming target set is probed exactly when
some local masked address matches, the selected local address is the
first match in iteration order, and in the one-in-subnet one-out
scenario exactly one target yields results: two of them, ARP then HTTP,
from local address 192.168.1.10. -/
theorem c6_first_match_selection :
    (∀ (myIPs : List Netplan.IPWithMask) (targets : List (String × Agent.TargetInfo))
        (probe : String → Agent.ProbeOutcome) (r : Agent.TestResult),
      r ∈ Agent.RunConnectivityTests myIPs targets probe →
      ∃ t ∈ targets, ∃ l ∈ t.2.links, ∃ tip ∈ l.2, ∃ m,
        myIPs.find? (fun x => Netplan.InSameSubnet x.cidr tip) = some m
        ∧ r.targetHostname = t.1 ∧ r.targetIP = tip ∧ r.sourceIP = m.ip
        ∧ r.bondName = l.1)
    ∧ ∀ probe : String → Agent.ProbeOutcome,
      (Agent.RunConnectivityTests scenarioMyIPs scenarioTargets probe).map
        (fun r => (r.targetHostname, r.targetIP, r.sourceIP, r.bondName, r.testType))
      = [("server2", "192.168.1.20", "192.168.1.10", "bond0", "arp"),
         ("server2", "192.168.1.20", "192.168.1.10", "bond0", "http")] := by
  constructor
  · intro myIPs targets probe r hr
    unfold Agent.RunConnectivityTests at hr
    simp only [List.mem_flatMap] at hr
    obtain ⟨t, ht, l, hl, tip, htip, hmem⟩ := hr
    cases hfind : myIPs.find? (fun x => Netplan.InSameSubnet x.cidr tip) with
    | none => rw [hfind] at hmem; simp at hmem
    | some m =>
      rw [hfind] at hmem
      obtain ⟨e1, e2, e3, e4⟩ := mem_testConnectivity_fields _ _ _ _ _ _ r hmem
      exact ⟨t, ht, l, hl, tip, htip, m, hfind, e1, e2, e3, e4⟩
  · intro probe
    have e : Agent.RunConnectivityTests scenarioMyIPs scenarioTargets probe
        = Agent.testConnectivity "server2" "192.168.1.20" "bond0" "192.168.1.10" "bond0"
            (probe "192.168.1.20") := rfl
    rw [e, testConnectivity_projection]

/-- Witness for C6: the scenario's ARP result is among the produced
results, and the claim theorem locates its source triple and first
matching local address. -/
theorem c6_witness :
    ∃ t ∈ scenarioTargets, ∃ l ∈ t.2.links, ∃ tip ∈ l.2, ∃ m,
      scenarioMyIPs.find? (fun x => Netplan.InSameSubnet x.cidr tip) = some m
      ∧ c6SampleResult.targetHostname = t.1 ∧ c6SampleResult.targetIP = tip
      ∧ c6SampleResult.sourceIP = m.ip ∧ c6SampleResult.bondName = l.1 :=
  c6_first_match_selection.1 scenarioMyIPs scenarioTargets
    (fun _ => ⟨none, 0, Except.ok 200, 0⟩) c6SampleResult (by decide)

/-- When some file of the list fails to parse, the per-file loop of the
directory load returns an error. -/
theorem loadConfigs_error_of_mem (load : String → Except String Netplan.Config)
    (fs : List String) (f e : String) (hf : f ∈ fs) (he : load f = Except.error e) :
    ∃ msg, Netplan.loadConfigs load fs = Except.error msg := by
  induction fs with
  | nil => cases hf
  | cons g gs ih =>
    rcases List.mem_cons.mp hf with rfl | hmem
    · exact ⟨"failed to load config from " ++ f ++ ": " ++ e,
        by simp [Netplan.loadConfigs, he]⟩
    · cases hg : load g with
      | error e2 =>
        exact ⟨"failed to load config from " ++ g ++ ": " ++ e2,
          by simp [Netplan.loadConfigs, hg]⟩
      | ok c =>
        obtain ⟨msg, hmsg⟩ := ih hmem
        exact ⟨msg, by simp [Netplan.loadConfigs, hg, hmsg]⟩

/-- When every file of the list parses, the per-file loop returns all
parsed documents in order. -/
theorem loadConfigs_ok (load : String → Except String Netplan.Config) (fs : List String)
    (h : ∀ f ∈ fs, ∃ c, load f = Except.ok c) :
    Netplan.loadConfigs load fs
      = Except.ok (fs.filterMap fun f => (load f).toOption) := by
  induction fs with
  | nil => rfl
  | cons g gs ih =>
    obtain ⟨c, hc⟩ := h g (List.mem_cons_self g gs)
    simp [Netplan.loadConfigs, hc, ih (fun f hf => h f (List.mem_cons_of_mem g hf)),
      Except.toOption]

/-- Counterexample for C3: with file enumeration succeeding and one of
two documents malformed, the load is aborted with an error rather than
returning the successfully parsed document. -/
theorem c3_parse_failure_aborts :
    Netplan.LoadNetplanConfigsFromDir (Except.ok ["a.yaml", "b.yaml"]) (Except.ok [])
        c3LoadOutcome
      = Except.error "failed to load config from a.yaml: yaml: unmarshal error"
    ∧ Netplan.LoadNetplanConfigsFromDir (Except.ok ["a.yaml", "b.yaml"]) (Except.ok [])
        c3LoadOutcome
      ≠ Except.ok [emptyConfig] := by decide

/-- Claim C3 as amended: a document that fails to parse aborts the whole
directory load with an error; the set of parsed graphs is returned only
when every enumerated document parses; and a failure of either glob
aborts the load as well. -/
theorem c3_amended_abort_on_first_failure :
    (∀ (ys zs : List String) (load : String → Except String Netplan.Config) (f e : String),
      f ∈ ys ++ zs → load f = Except.error e →
      ∃ msg, Netplan.LoadNetplanConfigsFromDir (Except.ok ys) (Except.ok zs) load
        = Except.error msg)
    ∧ (∀ (ys zs : List String) (load : String → Except String Netplan.Config),
      (∀ f ∈ ys ++ zs, ∃ c, load f = Except.ok c) →
      Netplan.LoadNetplanConfigsFromDir (Except.ok ys) (Except.ok zs) load
        = Except.ok ((ys ++ zs).filterMap fun f => (load f).toOption))
    ∧ (∀ (e : String) (zs : Except String (List String))
        (load : String → Except String Netplan.Config),
      Netplan.LoadNetplanConfigsFromDir (Except.error e) zs load
        = Except.error ("failed to glob yaml files: " ++ e))
    ∧ (∀ (ys : List String) (e : String) (load : String → Except String Netplan.Config),
      Netplan.LoadNetplanConfigsFromDir (Except.ok ys) (Except.error e) load
        = Except.error ("failed to glob yml files: " ++ e)) := by
  refine ⟨?_, ?_, fun e zs load => rfl, fun ys e load => rfl⟩
  · intro ys zs load f e hf he
    exact loadConfigs_error_of_mem load (ys ++ zs) f e hf he
  · intro ys zs load h
    exact loadConfigs_ok load (ys ++ zs) h

/-- Witness for the amended C3: in the two-file scenario the malformed
first document makes the whole load return an error. -/
theorem c3_amended_witness :
    ∃ msg, Netplan.LoadNetplanConfigsFromDir (Except.ok ["a.yaml", "b.yaml"])
      (Except.ok []) c3LoadOutcome = Except.error msg :=
  c3_amended_abort_on_first_failure.1 ["a.yaml", "b.yaml"] [] c3LoadOutcome
    "a.yaml" "yaml: unmarshal error" (by decide) (by decide)

/-- Claim C8: the personalized target set dispatched to an agent never
contains its own hostname, and contains the bond-to-IP mapping of every
other registered hostname whose stored bonds unmarshal. -/
theorem c8_target_matrix_excludes_self :
    (∀ (servers : List Aggregator.Server) (self : String)
        (p : String × Agent.TargetInfo),
      p ∈ Aggregator.targetsForAgent (Aggregator.buildAllTargets servers) self →
      p.1 ≠ self)
    ∧ (∀ (servers : List Aggregator.Server) (self : String) (s : Aggregator.Server)
        (b : List (String × List String)),
      s ∈ servers → s.hostname ≠ self → s.bonds = Except.ok b →
      (s.hostname, (⟨b⟩ : Agent.TargetInfo))
        ∈ Aggregator.targetsForAgent (Aggregator.buildAllTargets servers) self) := by
  constructor
  · intro servers self p hp
    have h2 := (List.mem_filter.mp hp).2
    simpa using h2
  · intro servers self s b hs hne hb
    apply List.mem_filter.mpr
    refine ⟨?_, by simpa using hne⟩
    apply List.mem_filterMap.mpr
    exact ⟨s, hs, by rw [hb]⟩

/-- Witness for C8: in the three-server registry, the target set for
agent-a contains agent-b's bond mapping. -/
theorem c8_witness :
    ("agent-b", (⟨[("bond0", ["10.1.0.2"])]⟩ : Agent.TargetInfo))
      ∈ Aggregator.targetsForAgent (Aggregator.buildAllTargets scenarioServers) "agent-a" :=
  c8_target_matrix_excludes_self.2 scenarioServers "agent-a"
    ⟨"agent-b", "10.1.0.2", Except.ok [("bond0", ["10.1.0.2"])]⟩
    [("bond0", ["10.1.0.2"])] (by decide) (by decide) (by decide)

/-- Characterization of the acknowledgement-collection loop: with enough
fuel, the final count adds one per successful arrival, explicit failures
are appended in order, and leftover fuel appends exactly one aggregated
timeout entry. -/
theorem collectAcks_spec (arrivals : List Aggregator.AckMsg) :
    ∀ (n succ : Nat) (failed : List String), arrivals.length ≤ n →
    Aggregator.collectAcks arrivals n succ failed
    = (succ + (arrivals.filter (fun a => a.success)).length,
       failed ++ (arrivals.filter (fun a => !a.success)).map Aggregator.failMsg
         ++ (if arrivals.length < n then
               [Aggregator.agentsTimedOutMsg (n - arrivals.length)] else [])) := by
  induction arrivals with
  | nil =>
    intro n succ failed h
    cases n with
    | zero => simp [Aggregator.collectAcks]
    | succ k => simp [Aggregator.collectAcks]
  | cons a rest ih =>
    intro n succ failed h
    cases n with
    | zero => simp at h
    | succ k =>
      have hk : rest.length ≤ k := by simpa using h
      by_cases ha : a.success
      · rw [show Aggregator.collectAcks (a :: rest) (k + 1) succ failed
            = Aggregator.collectAcks rest k (succ + 1) failed from by
              simp [Aggregator.collectAcks, ha],
          ih k (succ + 1) failed hk]
        simp only [List.filter_cons, ha, Bool.not_true, if_true, if_false,
          List.length_cons, Nat.add_lt_add_iff_right, Nat.add_sub_add_right,
          Prod.mk.injEq, Bool.false_eq_true]
        exact ⟨by omega, trivial⟩
      · rw [show Aggregator.collectAcks (a :: rest) (k + 1) succ failed
            = Aggregator.collectAcks rest k succ (failed ++ [Aggregator.failMsg a]) from by
              simp [Aggregator.collectAcks, ha],
          ih k succ (failed ++ [Aggregator.failMsg a]) hk]
        simp only [List.filter_cons, ha, Bool.not_false, if_true, if_false,
          List.length_cons, Nat.add_lt_add_iff_right, Nat.add_sub_add_right,
          List.map_cons, List.append_assoc, List.singleton_append,
          Prod.mk.injEq, Bool.false_eq_true]

/-- Claim C7: the trigger response reports count as the number of agents
that acknowledged in the window, total as the number of registered
agents, and the failed-or-timed-out entries in failed_agents (explicit
failures one each, plus one aggregated entry when any agent timed out);
in the three-agent scenario with one silent agent it is count 2, total
3, one failed entry. -/
theorem c7_trigger_acknowledgement_counts :
    (∀ (servers : List Aggregator.Server) (arrivals : List Aggregator.AckMsg),
      servers ≠ [] → arrivals.length ≤ servers.length →
      (Aggregator.handleRunTests servers arrivals).count
          = (arrivals.filter (fun a => a.success)).length
      ∧ (Aggregator.handleRunTests servers arrivals).total = servers.length
      ∧ (Aggregator.handleRunTests servers arrivals).failedAgents
          = (arrivals.filter (fun a => !a.success)).map Aggregator.failMsg
            ++ (if arrivals.length < servers.length then
                  [Aggregator.agentsTimedOutMsg (servers.length - arrivals.length)]
                else []))
    ∧ Aggregator.handleRunTests scenarioServers scenarioArrivals
        = ⟨2, 3, [Aggregator.agentsTimedOutMsg 1]⟩ := by
  constructor
  · intro servers arrivals hne hlen
    have hempty : servers.isEmpty = false := by
      cases servers with
      | nil => exact absurd rfl hne
      | cons s ss => rfl
    unfold Aggregator.handleRunTests
    rw [hempty]
    simp [collectAcks_spec arrivals servers.length 0 [] hlen]
  · decide

/-- Witness for C7: the three-agent scenario response evaluated through
the claim theorem. -/
theorem c7_witness :
    (Aggregator.handleRunTests scenarioServers scenarioArrivals).count = 2
    ∧ (Aggregator.handleRunTests scenarioServers scenarioArrivals).total = 3
    ∧ (Aggregator.handleRunTests scenarioServers scenarioArrivals).failedAgents.length
        = 1 := by
  obtain ⟨h1, h2, h3⟩ := c7_trigger_acknowledgement_counts.1 scenarioServers
    scenarioArrivals (by decide) (by decide)
  refine ⟨h1.trans (by decide), h2.trans (by decide), ?_⟩
  rw [h3]
  decide

/-- Claim C1 as amended: for every graph and bond present in it, the
resolver terminates with the fixed-depth enumeration rather than a
closure — an interface is listed exactly when it is the bond itself, a
VLAN linked to the bond, a bridge containing the bond, a VLAN linked to
a bridge containing the bond, or a tunnel passing the one-step
isBondRelated check; and every masked address returned is owned by one
of those interfaces or by a bridge containing a VLAN on the bond (the
address path's extra case).  Deeper nesting is not followed. -/
theorem c1_amended_fixed_depth_enumeration (c : Netplan.Config) (bondName : String)
    (h : (c.network.bonds.lookup bondName).isSome) :
    (∀ x, x ∈ c.GetAllBondRelatedInterfaces bondName ↔
      (x = bondName
       ∨ (∃ v, (x, v) ∈ c.network.vlans ∧ v.link = bondName)
       ∨ (∃ br, (x, br) ∈ c.network.bridges ∧ bondName ∈ br.interfaces)
       ∨ (∃ v br, (x, v) ∈ c.network.vlans
            ∧ c.network.bridges.lookup v.link = some br ∧ bondName ∈ br.interfaces)
       ∨ (∃ t, (x, t) ∈ c.network.tunnels ∧ c.isBondRelated bondName x = true)))
    ∧ (∀ e ∈ c.GetBondIPAddressesWithMask bondName,
      (e.bondName = bondName
       ∨ (∃ v, (e.bondName, v) ∈ c.network.vlans ∧ v.link = bondName)
       ∨ (∃ br, (e.bondName, br) ∈ c.network.bridges ∧ bondName ∈ br.interfaces)
       ∨ (∃ v br, (e.bondName, v) ∈ c.network.vlans
            ∧ c.network.bridges.lookup v.link = some br ∧ bondName ∈ br.interfaces)
       ∨ (∃ br m v, (e.bondName, br) ∈ c.network.bridges ∧ m ∈ br.interfaces
            ∧ c.network.vlans.lookup m = some v ∧ v.link = bondName)
       ∨ (∃ t, (e.bondName, t) ∈ c.network.tunnels
            ∧ c.isBondRelated bondName e.bondName = true))) := by
  obtain ⟨bd, hb⟩ := Option.isSome_iff_exists.mp h
  constructor
  · intro x
    unfold Netplan.Config.GetAllBondRelatedInterfaces
    rw [hb]
    simp only [List.mem_append, List.mem_map, List.mem_filter, List.mem_singleton]
    constructor
    · rintro ((((rfl | ⟨p, ⟨hp, hpred⟩, rfl⟩) | ⟨p, ⟨hp, hpred⟩, rfl⟩) |
        ⟨p, ⟨hp, hpred⟩, rfl⟩) | ⟨p, ⟨hp, hpred⟩, rfl⟩)
      · exact Or.inl rfl
      · exact Or.inr (Or.inl ⟨p.2, hp, eq_of_beq hpred⟩)
      · exact Or.inr (Or.inr (Or.inl ⟨p.2, hp, (string_contains_iff _ _).mp hpred⟩))
      · obtain ⟨br, hlk, hcont⟩ := (bridgeHasMember_iff c p.2.link bondName).mp hpred
        exact Or.inr (Or.inr (Or.inr (Or.inl ⟨p.2, br, hp, hlk, hcont⟩)))
      · exact Or.inr (Or.inr (Or.inr (Or.inr ⟨p.2, hp, hpred⟩)))
    · rintro (rfl | ⟨v, hv, hlink⟩ | ⟨br, hbr, hmem⟩ | ⟨v, br, hv, hlk, hmem⟩ | ⟨t, ht, hrel⟩)
      · exact Or.inl (Or.inl (Or.inl (Or.inl rfl)))
      · exact Or.inl (Or.inl (Or.inl (Or.inr
          ⟨(x, v), ⟨hv, by simpa using hlink⟩, rfl⟩)))
      · exact Or.inl (Or.inl (Or.inr
          ⟨(x, br), ⟨hbr, (string_contains_iff _ _).mpr hmem⟩, rfl⟩))
      · refine Or.inl (Or.inr ⟨(x, v), ⟨hv, ?_⟩, rfl⟩)
        exact (bridgeHasMember_iff c v.link bondName).mpr ⟨br, hlk, hmem⟩
      · exact Or.inr ⟨(x, t), ⟨ht, hrel⟩, rfl⟩
  · intro e he
    unfold Netplan.Config.GetBondIPAddressesWithMask at he
    rw [hb] at he
    obtain ⟨pr, hpr, hmk⟩ := List.mem_filterMap.mp he
    cases hp : Netplan.parseCIDR pr.2 with
    | none => rw [hp] at hmk; cases hmk
    | some net =>
      rw [hp] at hmk
      simp only [Option.map_some', Option.some.injEq] at hmk
      subst hmk
      unfold Netplan.Config.bondAddressPairs at hpr
      simp only [List.mem_append, List.mem_flatMap, List.mem_map, List.mem_filter] at hpr
      rcases hpr with ((((⟨a, ha, heq⟩ | ⟨q, ⟨hq, hpred⟩, a, ha, heq⟩) |
          ⟨q, ⟨hq, hpred⟩, a, ha, heq⟩) | ⟨q, ⟨hq, hpred⟩, a, ha, heq⟩) |
          ⟨q, ⟨hq, hpred⟩, a, ha, heq⟩) | ⟨q, ⟨hq, hpred⟩, a, ha, heq⟩
      · subst heq
        exact Or.inl rfl
      · subst heq
        exact Or.inr (Or.inl ⟨q.2, hq, eq_of_beq hpred⟩)
      · subst heq
        exact Or.inr (Or.inr (Or.inl ⟨q.2, hq, (string_contains_iff _ _).mp hpred⟩))
      · subst heq
        obtain ⟨br, hlk, hcont⟩ := (bridgeHasMember_iff c q.2.link bondName).mp hpred
        exact Or.inr (Or.inr (Or.inr (Or.inl ⟨q.2, br, hq, hlk, hcont⟩)))
      · subst heq
        obtain ⟨m, hm, hmatch⟩ := List.any_eq_true.mp hpred
        obtain ⟨v, hlkv, hlinkb⟩ := (vlanHasLink_iff c m bondName).mp hmatch
        exact Or.inr (Or.inr (Or.inr (Or.inr (Or.inl
          ⟨q.2, m, v, hq, hm, hlkv, hlinkb⟩))))
      · subst heq
        exact Or.inr (Or.inr (Or.inr (Or.inr (Or.inr
          ⟨q.2, hq, (Bool.and_eq_true _ _ |>.mp hpred).2⟩))))

/-- Witness for the amended C1: in the two-level fixture, br0 is listed
for bond0 because it is a bridge containing the bond. -/
theorem c1_amended_witness :
    "br0" ∈ cfg4.GetAllBondRelatedInterfaces "bond0" :=
  ((c1_amended_fixed_depth_enumeration cfg4 "bond0" (by decide)).1 "br0").mpr
    (Or.inr (Or.inr (Or.inl
      ⟨⟨⟨["172.16.1.1/24"], 0⟩, ["bond0"]⟩, by decide, by decide⟩)))
